import Mathlib

/-
Shallow embedding of the ovpn-dco data-channel core, translated from
src/net/ovpn-dco/crypto.c and src/net/ovpn-dco/peer.c.

Machine integers are modelled as Nat / Int; kernel error returns are the
usual negative errno values.  Pointer-valued slots become Option values;
reference-count bookkeeping that matters to the claims is made explicit
(allocation / release event lists, a Nat refcount on the peer).
-/

namespace OvpnDco

/-- linux errno: out of memory. -/
def ENOMEM : Int := 12

/-- linux errno: no such entry (the spec's no-key kind). -/
def ENOENT : Int := 2

/-- linux errno: invalid argument (the spec's invalid-argument / family-changed kinds). -/
def EINVAL : Int := 22

/-- linux errno: operation not supported (the spec's unsupported kind). -/
def EOPNOTSUPP : Int := 95

/-- uapi enum ovpn_cipher_alg: AES-GCM, AES-CBC, or anything else (the
default arm of ovpn_keys_familiy_get). -/
inductive CipherAlg
  | aes_gcm
  | aes_cbc
  | unknown
deriving DecidableEq

/-- uapi enum ovpn_crypto_families: {undef, AEAD, CBC-HMAC} (spec 6). -/
inductive CryptoFamily
  | undef
  | aead
  | cbc_hmac
deriving DecidableEq

/-- struct ovpn_key_config (uapi): the raw material a KeySlot is built from. -/
structure KeyConfig where
  cipher_alg : CipherAlg
  key_id : Nat
  encrypt_key : List Nat
  encrypt_nonce_tail : List Nat
  decrypt_key : List Nat
  decrypt_nonce_tail : List Nat
deriving DecidableEq

/-- Identity of a cipher-family ops table (address of a static struct
ovpn_crypto_ops in C): ovpn_aead_ops, and the reserved ovpn_chm_ops that
crypto.c references only in commented-out code. -/
inductive OpsRef
  | aead
  | chm
deriving DecidableEq

/-- struct ovpn_crypto_key_slot: immutable after construction; the built
key material is represented by the KeyConfig it was derived from. -/
structure KeySlot where
  ops : OpsRef
  key_id : Nat
  remote_peer_id : Nat
  kc : KeyConfig
deriving DecidableEq

/-- Modelled from the spec: ovpn_aead_ops.new (aead.c is not part of the
excerpt).  Spec 4.1: build the encrypt/decrypt contexts, rejecting
unsupported algorithms; spec S3: a KeyConfig whose algorithm is not the
AEAD one fails with the unsupported kind. -/
def aead_new_slot (kc : KeyConfig) : Except Int KeySlot :=
  if kc.cipher_alg = CipherAlg.aes_gcm then
    Except.ok { ops := OpsRef.aead, key_id := kc.key_id, remote_peer_id := 0, kc := kc }
  else
    Except.error (-EOPNOTSUPP)

/-- Modelled from the spec: the reserved CBC-HMAC family (ovpn_chm_ops is
referenced only in commented-out code and is never selectable); spec 4.1
says attempting to use it fails with unsupported. -/
def chm_new_slot (_kc : KeyConfig) : Except Int KeySlot :=
  Except.error (-EOPNOTSUPP)

/-- Dispatch of the constructor through the ops table. -/
def opsNewSlot : OpsRef → KeyConfig → Except Int KeySlot
  | OpsRef.aead => aead_new_slot
  | OpsRef.chm => chm_new_slot

/-- crypto.c:16 ovpn_ks_new: return ops->new(kc). -/
def ovpn_ks_new (ops : OpsRef) (kc : KeyConfig) : Except Int KeySlot :=
  opsNewSlot ops kc

/-- struct ovpn_crypto_state: two slot pointers plus the bound ops table
(the mutex serialising mutations is implicit in the sequential model). -/
structure CryptoState where
  primary : Option KeySlot
  secondary : Option KeySlot
  ops : Option OpsRef
deriving DecidableEq

/-- Modelled from the spec: ovpn_crypto_state_init (crypto.h, not part of
the excerpt); spec 4.3 step 2: empty CryptoState with no bound family. -/
def ovpn_crypto_state_init : CryptoState :=
  { primary := none, secondary := none, ops := none }

/-- uapi enum ovpn_key_slot, first value. -/
def OVPN_KEY_SLOT_PRIMARY : Nat := 0

/-- uapi enum ovpn_key_slot, second value. -/
def OVPN_KEY_SLOT_SECONDARY : Nat := 1

/-- struct ovpn_peer_key_reset (spec 6): slot, family, remote peer id, key.
The slot is a machine integer so that the default arm of the switch in
ovpn_crypto_state_reset (an invalid slot value) is representable. -/
structure PeerKeyReset where
  slot : Nat
  crypto_family : CryptoFamily
  remote_peer_id : Nat
  key : KeyConfig
deriving DecidableEq

/-- Everything observable about one ovpn_crypto_state_reset call: the
return value, the state after the call, the key slots the call
constructed, the key slots whose reference the call dropped, and the
stores the call performed on the two slot pointers (in program order). -/
structure ResetOutcome where
  ret : Int
  cs : CryptoState
  allocated : List KeySlot
  released : List KeySlot
  writes : List (Nat × Option KeySlot)
deriving DecidableEq

/-- crypto.c:80 ovpn_crypto_state_reset, translated line by line.  The C
code dereferences cs->ops unconditionally in ovpn_ks_new, so a state with
no bound ops has no defined outcome (none).  On construction failure the
error is returned with nothing touched; then remote_peer_id is stamped on
the new slot; then the slot switch either swaps the pointer (one store,
releasing the old slot) or, on an invalid slot value, releases the fresh
slot and returns -EINVAL. -/
def ovpn_crypto_state_reset (cs : CryptoState) (pkr : PeerKeyReset) :
    Option ResetOutcome :=
  match cs.ops with
  | none => none
  | some o =>
    match ovpn_ks_new o pkr.key with
    | Except.error e =>
      some { ret := e, cs := cs, allocated := [], released := [], writes := [] }
    | Except.ok ks =>
      let newKs := { ks with remote_peer_id := pkr.remote_peer_id }
      if pkr.slot = OVPN_KEY_SLOT_PRIMARY then
        some { ret := 0,
               cs := { cs with primary := some newKs },
               allocated := [newKs],
               released := cs.primary.toList,
               writes := [(OVPN_KEY_SLOT_PRIMARY, some newKs)] }
      else if pkr.slot = OVPN_KEY_SLOT_SECONDARY then
        some { ret := 0,
               cs := { cs with secondary := some newKs },
               allocated := [newKs],
               released := cs.secondary.toList,
               writes := [(OVPN_KEY_SLOT_SECONDARY, some newKs)] }
      else
        some { ret := -EINVAL, cs := cs, allocated := [newKs],
               released := [newKs], writes := [] }

/-- crypto.c:149 ovpn_crypto_select_family: UNDEF returns NULL, AEAD
returns the aead ops table, and the CBC_HMAC case being commented out,
every other family falls to the default NULL arm. -/
def ovpn_crypto_select_family (pkr : PeerKeyReset) : Option OpsRef :=
  match pkr.crypto_family with
  | CryptoFamily.undef => none
  | CryptoFamily.aead => some OpsRef.aead
  | CryptoFamily.cbc_hmac => none

/-- Return value and resulting state of one ovpn_crypto_state_select_family call. -/
structure SelectOutcome where
  ret : Int
  cs : CryptoState
deriving DecidableEq

/-- crypto.c:164 ovpn_crypto_state_select_family: no ops table for the
requested family is -EOPNOTSUPP; an already-bound different ops table is
-EINVAL (family changed); otherwise bind and return 0. -/
def ovpn_crypto_state_select_family (cs : CryptoState) (pkr : PeerKeyReset) :
    SelectOutcome :=
  match ovpn_crypto_select_family pkr with
  | none => { ret := -EOPNOTSUPP, cs := cs }
  | some new_ops =>
    match cs.ops with
    | some o =>
      if o ≠ new_ops then { ret := -EINVAL, cs := cs }
      else { ret := 0, cs := { cs with ops := some new_ops } }
    | none => { ret := 0, cs := { cs with ops := some new_ops } }

/-- crypto.c:184 ovpn_keys_familiy_get (name as in the source): the family
a key config's algorithm maps to. -/
def ovpn_keys_familiy_get (kc : KeyConfig) : CryptoFamily :=
  match kc.cipher_alg with
  | CipherAlg.aes_gcm => CryptoFamily.aead
  | CipherAlg.aes_cbc => CryptoFamily.cbc_hmac
  | CipherAlg.unknown => CryptoFamily.undef

/-- Modelled from the spec: the data-path lookup by key id (declared in
crypto.h, outside the excerpt).  Spec 4.2: a handle to the slot whose
key_id matches, primary checked first, no-key otherwise. -/
def ovpn_crypto_key_id_lookup (cs : CryptoState) (kid : Nat) : Option KeySlot :=
  match cs.primary with
  | some p =>
    if p.key_id = kid then some p
    else
      match cs.secondary with
      | some s => if s.key_id = kid then some s else none
      | none => none
  | none =>
    match cs.secondary with
    | some s => if s.key_id = kid then some s else none
    | none => none

/-- The key slot a successful reset for the request pkr installs when the
bound ops table is o: the slot built by ops->new, stamped with the
request's remote_peer_id (crypto.c:89-93); none when construction fails. -/
def installedSlot (o : OpsRef) (pkr : PeerKeyReset) : Option KeySlot :=
  match ovpn_ks_new o pkr.key with
  | Except.ok ks => some { ks with remote_peer_id := pkr.remote_peer_id }
  | Except.error _ => none

/-- Run a sequence of resets, recording the value of the primary slot
pointer after each call; none as soon as a call is undefined or fails.
This is the writer-side installation history a concurrent reader samples. -/
def runPrimaryResets : CryptoState → List PeerKeyReset → Option (List (Option KeySlot))
  | _, [] => some []
  | cs, pkr :: rest =>
    match ovpn_crypto_state_reset cs pkr with
    | none => none
    | some out =>
      if out.ret = 0 then
        match runPrimaryResets out.cs rest with
        | none => none
        | some tl => some (out.cs.primary :: tl)
      else none

/-- One of the two keepalive timers of a peer (peer.c keepalive_xmit /
keepalive_expire). -/
inductive TimerId
  | xmit
  | expire
deriving DecidableEq

/-- struct ovpn_timer as far as the claims need it: the configured period
and whether the timer is currently armed (pending). -/
structure Timer where
  period : Nat
  armed : Bool
deriving DecidableEq

/-- struct ovpn_peer as far as the claims need it: halt flag, refcount,
the two keepalive timers and the crypto state.  Bind, rings, workers and
stats are modelled through event lists where a claim is about them. -/
structure Peer where
  halt : Bool
  refcount : Nat
  keepalive_xmit : Timer
  keepalive_expire : Timer
  crypto : CryptoState
deriving DecidableEq

/-- Read one of the peer's two timers by identity. -/
def Peer.getTimer (p : Peer) : TimerId → Timer
  | TimerId.xmit => p.keepalive_xmit
  | TimerId.expire => p.keepalive_expire

/-- Replace one of the peer's two timers by identity. -/
def Peer.setTimer (p : Peer) : TimerId → Timer → Peer
  | TimerId.xmit, t => { p with keepalive_xmit := t }
  | TimerId.expire, t => { p with keepalive_expire := t }

/-- Modelled from the spec: ovpn_timer_schedule (the timer code is not
part of the excerpt).  Spec 4.5: a zero period does not arm the timer (a
still-pending timer is left to fire once more, its handler releasing the
armed reference); a positive period (re)arms it.  The Bool result feeds
the rcdelta bookkeeping in peer.c:195: it is true exactly when the call
did not newly arm the timer (mod_timer-style: the timer was already
pending, or a zero period kept it untouched). -/
def ovpn_timer_schedule (t : Timer) : Bool × Timer :=
  if t.period = 0 then (true, t)
  else (t.armed, { t with armed := true })

/-- Modelled from the spec: ovpn_timer_delete (the timer code is not part
of the excerpt).  Disarms the timer and reports whether it was armed, so
the caller can drop the armed reference (spec 4.5: a newly-disarmed timer
subtracts one). -/
def ovpn_timer_delete (t : Timer) : Bool × Timer :=
  (t.armed, { t with armed := false })

/-- Modelled from the spec: ovpn_timer_set_period (the timer code is not
part of the excerpt): record the period used by the next schedule. -/
def ovpn_timer_set_period (t : Timer) (per : Nat) : Timer :=
  { t with period := per }

/-- peer.c ovpn_peer_hold (via kref_get_unless_zero, crypto.h/peer.h):
increment the refcount unless it has already reached zero; spec 4.4. -/
def ovpn_peer_hold (p : Peer) : Bool × Peer :=
  if p.refcount = 0 then (false, p)
  else (true, { p with refcount := p.refcount + 1 })

/-- peer.c ovpn_peer_put (kref_put): drop one reference.  Reaching zero
schedules the deferred release; the callers modelled here never put a
zero count. -/
def ovpn_peer_put (p : Peer) : Peer :=
  { p with refcount := p.refcount - 1 }

/-- peer.c:148 ovpn_peer_delete: no-op if halt is already set, else set
halt and release the caller's original reference. -/
def ovpn_peer_delete (p : Peer) : Peer :=
  if p.halt then p
  else ovpn_peer_put { p with halt := true }

/-- peer.c:192 ovpn_peer_timer_schedule, translated line by line:
schedule the timer; if that did not find it already armed (and did arm
it), bump rcdelta; then a delta of 0 does nothing, +1 takes a reference
(deleting the timer again if the peer is already dying), -1 drops one,
and anything else is a WARN_ON(1) no-op. -/
def ovpn_peer_timer_schedule (p : Peer) (tid : TimerId) (rcdelta : Int) : Peer :=
  let sr := ovpn_timer_schedule (p.getTimer tid)
  let p1 := p.setTimer tid sr.2
  let d := if sr.1 = false then rcdelta + 1 else rcdelta
  if d = 0 then p1
  else if d = 1 then
    let hr := ovpn_peer_hold p1
    if hr.1 then hr.2
    else p1.setTimer tid (ovpn_timer_delete (p1.getTimer tid)).2
  else if d = -1 then ovpn_peer_put p1
  else p1

/-- peer.c:180 ovpn_peer_timer_delete: delete the timer and, if it was
armed, drop the reference the armed timer held. -/
def ovpn_peer_timer_delete (p : Peer) (tid : TimerId) : Peer :=
  let dr := ovpn_timer_delete (p.getTimer tid)
  let p1 := p.setTimer tid dr.2
  if dr.1 then ovpn_peer_put p1 else p1

/-- peer.c:186 ovpn_peer_timer_delete_all: delete xmit then expire. -/
def ovpn_peer_timer_delete_all (p : Peer) : Peer :=
  ovpn_peer_timer_delete (ovpn_peer_timer_delete p TimerId.xmit) TimerId.expire

/-- peer.c:250 ovpn_peer_set_keepalive: set the xmit period and schedule
it with rcdelta 0, then the same for expire. -/
def ovpn_peer_set_keepalive (p : Peer) (keepalive_ping keepalive_timeout : Nat) :
    Peer :=
  let p1 := p.setTimer TimerId.xmit
    (ovpn_timer_set_period (p.getTimer TimerId.xmit) keepalive_ping)
  let p2 := ovpn_peer_timer_schedule p1 TimerId.xmit 0
  let p3 := p2.setTimer TimerId.expire
    (ovpn_timer_set_period (p2.getTimer TimerId.expire) keepalive_timeout)
  ovpn_peer_timer_schedule p3 TimerId.expire 0

/-- Resources allocated while constructing a peer (peer.c:34). -/
inductive Alloc
  | peerMem
  | txRing
  | rxRing
deriving DecidableEq

/-- What ovpn_peer_new hands back through its pointer return: a valid
peer, an ERR_PTR-encoded errno, or a bare NULL. -/
inductive PeerNewResult
  | ok (p : Peer)
  | errPtr (e : Int)
  | nullPtr
deriving DecidableEq

/-- Result of one ovpn_peer_new call together with the allocations it
performed and the ones it freed again before returning. -/
structure PeerNewOutcome where
  result : PeerNewResult
  allocs : List Alloc
  frees : List Alloc
deriving DecidableEq

/-- Outcome of the allocators ovpn_peer_new calls into: kmalloc
for the peer, ptr_ring_init for the TX and RX rings. -/
structure AllocEnv where
  peer_alloc_ok : Bool
  tx_ring_ok : Bool
  rx_ring_ok : Bool
deriving DecidableEq

/-- peer.c:34 ovpn_peer_new, translated path by path: kmalloc failure
returns ERR_PTR(-ENOMEM); a TX-ring init failure frees the peer and
returns NULL (goto err); an RX-ring init failure cleans up the TX ring,
frees the peer and returns NULL (goto err_tx_ring); otherwise the peer is
returned with status ACTIVE, halt false, empty crypto state, refcount 1
(kref_init) and both timers initialised disarmed with no period. -/
def ovpn_peer_new (env : AllocEnv) : PeerNewOutcome :=
  if env.peer_alloc_ok = false then
    { result := PeerNewResult.errPtr (-ENOMEM), allocs := [], frees := [] }
  else if env.tx_ring_ok = false then
    { result := PeerNewResult.nullPtr,
      allocs := [Alloc.peerMem],
      frees := [Alloc.peerMem] }
  else if env.rx_ring_ok = false then
    { result := PeerNewResult.nullPtr,
      allocs := [Alloc.peerMem, Alloc.txRing],
      frees := [Alloc.txRing, Alloc.peerMem] }
  else
    { result := PeerNewResult.ok
        { halt := false,
          refcount := 1,
          keepalive_xmit := { period := 0, armed := false },
          keepalive_expire := { period := 0, armed := false },
          crypto := ovpn_crypto_state_init },
      allocs := [Alloc.peerMem, Alloc.txRing, Alloc.rxRing],
      frees := [] }

/-- The observable steps of the peer release path (peer.c:109 and
peer.c:125); mutex_destroy, being bookkeeping on an already-quiesced
lock, is not an event of interest to the claims. -/
inductive REv
  | cryptoRelease
  | bindRelease
  | timerStop (t : TimerId)
  | drainTx
  | drainRx
  | devPut
  | freePeer
deriving DecidableEq

/-- peer.c:109 ovpn_peer_release in statement order: ovpn_bind_reset(peer,
NULL); ovpn_peer_timer_delete_all (xmit then expire); ptr_ring_cleanup of
the TX ring then of the RX ring, each freeing buffered packets after a
WARN_ON if non-empty; dev_put; (mutex_destroy;) kfree(peer). -/
def ovpn_peer_release_events : List REv :=
  [REv.bindRelease,
   REv.timerStop TimerId.xmit, REv.timerStop TimerId.expire,
   REv.drainTx, REv.drainRx,
   REv.devPut,
   REv.freePeer]

/-- peer.c:125 ovpn_peer_release_rcu: ovpn_crypto_state_release(peer)
first, then ovpn_peer_release(peer). -/
def ovpn_peer_release_rcu_events : List REv :=
  REv.cryptoRelease :: ovpn_peer_release_events

/-
Concrete inputs for witnesses and counterexamples, following the spec's
end-to-end scenarios S1-S3.
-/

/-- The S1 key config: AES-GCM, key_id 0x000001, 32-byte keys, 4-byte
nonce tails. -/
def kcGcmW : KeyConfig :=
  { cipher_alg := CipherAlg.aes_gcm, key_id := 1,
    encrypt_key := List.replicate 32 17, encrypt_nonce_tail := List.replicate 4 170,
    decrypt_key := List.replicate 32 34, decrypt_nonce_tail := List.replicate 4 187 }

/-- The S2 second key config: AES-GCM, key_id 0x000003. -/
def kcGcm2W : KeyConfig :=
  { kcGcmW with key_id := 3 }

/-- The S3 key config: AES-CBC (maps to the reserved CBC-HMAC family). -/
def kcCbcW : KeyConfig :=
  { kcGcmW with cipher_alg := CipherAlg.aes_cbc }

/-- A select-family request for AEAD. -/
def pkrSelAeadW : PeerKeyReset :=
  { slot := OVPN_KEY_SLOT_PRIMARY, crypto_family := CryptoFamily.aead,
    remote_peer_id := 2, key := kcGcmW }

/-- A select-family request for the reserved CBC-HMAC family. -/
def pkrSelCbcW : PeerKeyReset :=
  { slot := OVPN_KEY_SLOT_PRIMARY, crypto_family := CryptoFamily.cbc_hmac,
    remote_peer_id := 2, key := kcCbcW }

/-- The S1 reset request: primary slot, remote_peer_id 0x000002, AES-GCM key. -/
def pkrS1W : PeerKeyReset :=
  { slot := OVPN_KEY_SLOT_PRIMARY, crypto_family := CryptoFamily.aead,
    remote_peer_id := 2, key := kcGcmW }

/-- The S2 rotation request: primary slot again, key_id 0x000003. -/
def pkrS2W : PeerKeyReset :=
  { slot := OVPN_KEY_SLOT_PRIMARY, crypto_family := CryptoFamily.aead,
    remote_peer_id := 2, key := kcGcm2W }

/-- The S3 reset request: AES-CBC key into the primary slot. -/
def pkrCbcPrimW : PeerKeyReset :=
  { slot := OVPN_KEY_SLOT_PRIMARY, crypto_family := CryptoFamily.cbc_hmac,
    remote_peer_id := 2, key := kcCbcW }

/-- A reset request with an invalid slot identifier (2 is neither
primary (0) nor secondary (1)) and a well-formed AES-GCM key. -/
def pkrBadSlotW : PeerKeyReset :=
  { slot := 2, crypto_family := CryptoFamily.aead,
    remote_peer_id := 7, key := kcGcmW }

/-- A reset request with an invalid slot identifier and an AES-CBC key,
so that key-slot construction itself fails. -/
def pkrBadSlotCbcW : PeerKeyReset :=
  { slot := 2, crypto_family := CryptoFamily.aead,
    remote_peer_id := 7, key := kcCbcW }

/-- A crypto state bound to the AEAD family with both slots empty: the
state select_family(AEAD) produces from a fresh state. -/
def csAeadW : CryptoState :=
  { primary := none, secondary := none, ops := some OpsRef.aead }

/-- A crypto state bound to the reserved CBC-HMAC ops table (never
reachable through select_family; exercises the family-changed branch). -/
def csChmW : CryptoState :=
  { primary := none, secondary := none, ops := some OpsRef.chm }

/-- The key slot the S1 reset installs. -/
def ksS1W : KeySlot :=
  { ops := OpsRef.aead, key_id := 1, remote_peer_id := 2, kc := kcGcmW }

/-- The key slot the S2 rotation installs. -/
def ksS2W : KeySlot :=
  { ops := OpsRef.aead, key_id := 3, remote_peer_id := 2, kc := kcGcm2W }

/-- The key slot built (and then released) by the invalid-slot reset. -/
def ksBadSlotW : KeySlot :=
  { ops := OpsRef.aead, key_id := 1, remote_peer_id := 7, kc := kcGcmW }

/-- The outcome of the S1 reset on the AEAD-bound empty state. -/
def outS1W : ResetOutcome :=
  { ret := 0,
    cs := { primary := some ksS1W, secondary := none, ops := some OpsRef.aead },
    allocated := [ksS1W], released := [],
    writes := [(OVPN_KEY_SLOT_PRIMARY, some ksS1W)] }

/-- The outcome of the invalid-slot reset on the AEAD-bound empty state. -/
def outBadSlotW : ResetOutcome :=
  { ret := -EINVAL, cs := csAeadW,
    allocated := [ksBadSlotW], released := [ksBadSlotW], writes := [] }

/-- The primary-slot history of the S1 install followed by the S2 rotation. -/
def trajW : List (Option KeySlot) :=
  [some ksS1W, some ksS2W]

/-- A live peer with three outstanding references and both timers idle. -/
def peerW : Peer :=
  { halt := false, refcount := 3,
    keepalive_xmit := { period := 0, armed := false },
    keepalive_expire := { period := 0, armed := false },
    crypto := ovpn_crypto_state_init }

/-- A live peer with one reference and both timers configured (periods 1
and 3) but not yet armed. -/
def peerKaW : Peer :=
  { halt := false, refcount := 1,
    keepalive_xmit := { period := 1, armed := false },
    keepalive_expire := { period := 3, armed := false },
    crypto := ovpn_crypto_state_init }

/-- A live peer with two references and both timers armed. -/
def peerArmedW : Peer :=
  { halt := false, refcount := 2,
    keepalive_xmit := { period := 1, armed := true },
    keepalive_expire := { period := 3, armed := true },
    crypto := ovpn_crypto_state_init }

/-
Theorems settling the claims.
-/

/-- Claim C4, counterexample: the release path does not run in the claimed
order (1) Bind, (2) timers, (3) queues, (4) device, (5) CryptoState,
(6) free — in the code ovpn_peer_release_rcu releases the CryptoState
first, before the Bind. -/
theorem c4_counterexample :
    ovpn_peer_release_rcu_events ≠
      [REv.bindRelease, REv.timerStop TimerId.xmit, REv.timerStop TimerId.expire,
       REv.drainTx, REv.drainRx, REv.devPut, REv.cryptoRelease, REv.freePeer] := by
  decide

/-- Claim C4, amended: the peer release routine performs its steps in the
order (1) release CryptoState, (2) release Bind, (3) stop both timers
(xmit then expire, dropping the armed reference if one is still armed),
(4) drain the TX queue then the RX queue freeing buffered packets,
(5) release the tunnel device reference, (6) free the peer. -/
theorem c4_release_order :
    ovpn_peer_release_rcu_events =
      [REv.cryptoRelease, REv.bindRelease,
       REv.timerStop TimerId.xmit, REv.timerStop TimerId.expire,
       REv.drainTx, REv.drainRx, REv.devPut, REv.freePeer] := by
  rfl

/-- Claim C5: a kmalloc failure in ovpn_peer_new does return the typed
error ERR_PTR(-ENOMEM), but both ring-initialisation failures return a
bare NULL, not the typed out-of-memory error the claim (and spec)
require — while earlier allocations are indeed unwound in reverse order
on every failure path. -/
theorem c5_peer_new_failure_paths :
    (ovpn_peer_new { peer_alloc_ok := false, tx_ring_ok := true, rx_ring_ok := true }).result
        = PeerNewResult.errPtr (-ENOMEM)
  ∧ (ovpn_peer_new { peer_alloc_ok := true, tx_ring_ok := false, rx_ring_ok := true }).result
        = PeerNewResult.nullPtr
  ∧ (ovpn_peer_new { peer_alloc_ok := true, tx_ring_ok := true, rx_ring_ok := false }).result
        = PeerNewResult.nullPtr
  ∧ PeerNewResult.nullPtr ≠ PeerNewResult.errPtr (-ENOMEM)
  ∧ (ovpn_peer_new { peer_alloc_ok := true, tx_ring_ok := false, rx_ring_ok := true }).frees
        = (ovpn_peer_new { peer_alloc_ok := true, tx_ring_ok := false, rx_ring_ok := true }).allocs.reverse
  ∧ (ovpn_peer_new { peer_alloc_ok := true, tx_ring_ok := true, rx_ring_ok := false }).frees
        = (ovpn_peer_new { peer_alloc_ok := true, tx_ring_ok := true, rx_ring_ok := false }).allocs.reverse := by
  decide

/-- Claim C3: reset is all-or-nothing — whenever ovpn_crypto_state_reset
returns an error (key-slot construction failure or an invalid slot
identifier), the CryptoState is exactly what it was before the call and
every key slot the operation allocated has been released again. -/
theorem c3_reset_all_or_nothing (cs : CryptoState) (pkr : PeerKeyReset)
    (out : ResetOutcome)
    (hout : ovpn_crypto_state_reset cs pkr = some out)
    (herr : out.ret ≠ 0) :
    out.cs = cs ∧ out.allocated = out.released := by
  cases hops : cs.ops with
  | none => simp [ovpn_crypto_state_reset, hops] at hout
  | some o =>
    cases hnew : ovpn_ks_new o pkr.key with
    | error e =>
      simp only [ovpn_crypto_state_reset, hops, hnew, Option.some.injEq] at hout
      subst hout
      exact ⟨rfl, rfl⟩
    | ok ks =>
      simp only [ovpn_crypto_state_reset, hops, hnew] at hout
      by_cases hp : pkr.slot = OVPN_KEY_SLOT_PRIMARY
      · rw [if_pos hp] at hout
        simp only [Option.some.injEq] at hout
        subst hout
        exact absurd rfl herr
      · rw [if_neg hp] at hout
        by_cases hs : pkr.slot = OVPN_KEY_SLOT_SECONDARY
        · rw [if_pos hs] at hout
          simp only [Option.some.injEq] at hout
          subst hout
          exact absurd rfl herr
        · rw [if_neg hs] at hout
          simp only [Option.some.injEq] at hout
          subst hout
          exact ⟨rfl, rfl⟩

/-- Claim C3, witness: an invalid-slot reset on the AEAD-bound empty
state fails with -EINVAL, leaves the state untouched and releases the
slot it built. -/
theorem c3_witness :
    ovpn_crypto_state_reset csAeadW pkrBadSlotW = some outBadSlotW
  ∧ outBadSlotW.ret ≠ 0
  ∧ outBadSlotW.cs = csAeadW
  ∧ outBadSlotW.allocated = outBadSlotW.released := by
  have h := c3_reset_all_or_nothing csAeadW pkrBadSlotW outBadSlotW (by decide) (by decide)
  exact ⟨by decide, by decide, h.1, h.2⟩

/-- Claim C10: ovpn_crypto_state_reset validates the slot identifier only
after building the new key slot.  For an invalid slot value: if
construction fails, the construction error is what is returned (not
invalid-argument); if construction succeeds, the freshly built slot is
released again, -EINVAL is returned, and the CryptoState is untouched. -/
theorem c10_slot_validated_after_build (cs : CryptoState) (o : OpsRef)
    (pkr : PeerKeyReset) (hops : cs.ops = some o)
    (hp : pkr.slot ≠ OVPN_KEY_SLOT_PRIMARY)
    (hs : pkr.slot ≠ OVPN_KEY_SLOT_SECONDARY) :
    (∀ e, ovpn_ks_new o pkr.key = Except.error e →
       ovpn_crypto_state_reset cs pkr
         = some { ret := e, cs := cs, allocated := [], released := [], writes := [] })
  ∧ (∀ ks, ovpn_ks_new o pkr.key = Except.ok ks →
       ovpn_crypto_state_reset cs pkr
         = some { ret := -EINVAL, cs := cs,
                  allocated := [{ ks with remote_peer_id := pkr.remote_peer_id }],
                  released := [{ ks with remote_peer_id := pkr.remote_peer_id }],
                  writes := [] }) := by
  constructor
  · intro e he
    simp only [ovpn_crypto_state_reset, hops, he]
  · intro ks hk
    simp only [ovpn_crypto_state_reset, hops, hk, if_neg hp, if_neg hs]

/-- Claim C10, witness: with slot identifier 2, an AES-GCM key is first
built and then released with -EINVAL returned, while an AES-CBC key
fails construction and that error (-EOPNOTSUPP) is returned instead of
invalid-argument. -/
theorem c10_witness :
    ovpn_crypto_state_reset csAeadW pkrBadSlotW = some outBadSlotW
  ∧ ovpn_crypto_state_reset csAeadW pkrBadSlotCbcW
      = some { ret := -EOPNOTSUPP, cs := csAeadW,
               allocated := [], released := [], writes := [] }
  ∧ (-EOPNOTSUPP : Int) ≠ -EINVAL := by
  have h1 := (c10_slot_validated_after_build csAeadW OpsRef.aead pkrBadSlotW rfl
    (by decide) (by decide)).2
    { ops := OpsRef.aead, key_id := 1, remote_peer_id := 0, kc := kcGcmW } rfl
  have h2 := (c10_slot_validated_after_build csAeadW OpsRef.aead pkrBadSlotCbcW rfl
    (by decide) (by decide)).1 (-EOPNOTSUPP) rfl
  exact ⟨h1, h2, by decide⟩

/-- A construction failure reported by an ops table's new is never the
success value 0 (both families report -EOPNOTSUPP for a rejected config). -/
lemma ovpn_ks_new_error_ne_zero (o : OpsRef) (kc : KeyConfig) (e : Int)
    (h : ovpn_ks_new o kc = Except.error e) : e ≠ 0 := by
  cases o with
  | aead =>
    simp only [ovpn_ks_new, opsNewSlot, aead_new_slot] at h
    split at h
    · exact absurd h (by simp)
    · injection h with h'
      subst h'
      decide
  | chm =>
    simp only [ovpn_ks_new, opsNewSlot, chm_new_slot] at h
    injection h with h'
    subst h'
    decide

/-- A slot built by an ops table's new carries the key_id of the config
it was built from. -/
lemma ovpn_ks_new_ok_key_id (o : OpsRef) (kc : KeyConfig) (ks : KeySlot)
    (h : ovpn_ks_new o kc = Except.ok ks) : ks.key_id = kc.key_id := by
  cases o with
  | aead =>
    simp only [ovpn_ks_new, opsNewSlot, aead_new_slot] at h
    split at h
    · injection h with h'
      subst h'
      rfl
    · exact absurd h (by simp)
  | chm =>
    simp only [ovpn_ks_new, opsNewSlot, chm_new_slot] at h
    exact absurd h (by simp)

/-- Claim C6: after a successful reset, the chosen slot holds a key slot
whose remote_peer_id equals the request's remote_peer_id (and whose
key_id comes from the KeyConfig), and the call's single store to the slot
pointer publishes exactly that fully-stamped slot — the field is written
before the pointer is published. -/
theorem c6_remote_peer_id_same_publish (cs : CryptoState) (pkr : PeerKeyReset)
    (out : ResetOutcome)
    (hout : ovpn_crypto_state_reset cs pkr = some out)
    (hok : out.ret = 0) :
    ∃ ks : KeySlot,
      out.writes = [(pkr.slot, some ks)]
      ∧ ks.remote_peer_id = pkr.remote_peer_id
      ∧ ks.key_id = pkr.key.key_id
      ∧ (pkr.slot = OVPN_KEY_SLOT_PRIMARY → out.cs.primary = some ks)
      ∧ (pkr.slot = OVPN_KEY_SLOT_SECONDARY → out.cs.secondary = some ks) := by
  cases hops : cs.ops with
  | none => simp [ovpn_crypto_state_reset, hops] at hout
  | some o =>
    cases hnew : ovpn_ks_new o pkr.key with
    | error e =>
      simp only [ovpn_crypto_state_reset, hops, hnew, Option.some.injEq] at hout
      subst hout
      exact absurd hok (ovpn_ks_new_error_ne_zero o pkr.key e hnew)
    | ok ks =>
      simp only [ovpn_crypto_state_reset, hops, hnew] at hout
      by_cases hp : pkr.slot = OVPN_KEY_SLOT_PRIMARY
      · rw [if_pos hp] at hout
        simp only [Option.some.injEq] at hout
        subst hout
        refine ⟨{ ks with remote_peer_id := pkr.remote_peer_id }, ?_, rfl, ?_, ?_, ?_⟩
        · rw [hp]
        · exact ovpn_ks_new_ok_key_id o pkr.key ks hnew
        · intro _
          rfl
        · intro hs
          rw [hp] at hs
          exact absurd hs (by decide)
      · rw [if_neg hp] at hout
        by_cases hs : pkr.slot = OVPN_KEY_SLOT_SECONDARY
        · rw [if_pos hs] at hout
          simp only [Option.some.injEq] at hout
          subst hout
          refine ⟨{ ks with remote_peer_id := pkr.remote_peer_id }, ?_, rfl, ?_, ?_, ?_⟩
          · rw [hs]
          · exact ovpn_ks_new_ok_key_id o pkr.key ks hnew
          · intro hp'
            exact absurd hp' hp
          · intro _
            rfl
        · rw [if_neg hs] at hout
          simp only [Option.some.injEq] at hout
          subst hout
          exact absurd (show (-EINVAL : Int) = 0 from hok) (by decide)

/-- Claim C6, witness: scenario S1 — on the AEAD-bound state, reset into
the primary slot with key_id 0x000001 and remote_peer_id 0x000002
publishes a single fully-stamped slot, and a lookup by key_id 0x000001
returns a slot whose remote_peer_id is 0x000002. -/
theorem c6_witness :
    ovpn_crypto_state_reset csAeadW pkrS1W = some outS1W
  ∧ (∃ ks : KeySlot,
      outS1W.writes = [(pkrS1W.slot, some ks)]
      ∧ ks.remote_peer_id = pkrS1W.remote_peer_id
      ∧ ks.key_id = pkrS1W.key.key_id
      ∧ (pkrS1W.slot = OVPN_KEY_SLOT_PRIMARY → outS1W.cs.primary = some ks)
      ∧ (pkrS1W.slot = OVPN_KEY_SLOT_SECONDARY → outS1W.cs.secondary = some ks))
  ∧ Option.map KeySlot.remote_peer_id (ovpn_crypto_key_id_lookup outS1W.cs 1) = some 2 := by
  refine ⟨by decide, ?_, by decide⟩
  exact c6_remote_peer_id_same_publish csAeadW pkrS1W outS1W (by decide) (by decide)

/-- Claim C1: after select_family(AEAD) has succeeded, a reset whose
KeyConfig's algorithm maps to a different family (e.g. AES-CBC) fails
with the unsupported kind (-EOPNOTSUPP, raised by the AEAD constructor),
and the CryptoState — slots and bound ops — is unchanged by the failed
call. -/
theorem c1_reset_wrong_family_rejected (cs : CryptoState) (pkr1 pkr2 : PeerKeyReset)
    (hfam : pkr1.crypto_family = CryptoFamily.aead)
    (hsel : (ovpn_crypto_state_select_family cs pkr1).ret = 0)
    (hdiff : ovpn_keys_familiy_get pkr2.key ≠ CryptoFamily.aead) :
    ovpn_crypto_state_reset (ovpn_crypto_state_select_family cs pkr1).cs pkr2
      = some { ret := -EOPNOTSUPP,
               cs := (ovpn_crypto_state_select_family cs pkr1).cs,
               allocated := [], released := [], writes := [] } := by
  have halg : pkr2.key.cipher_alg ≠ CipherAlg.aes_gcm := by
    intro h
    exact hdiff (by simp [ovpn_keys_familiy_get, h])
  have hops : (ovpn_crypto_state_select_family cs pkr1).cs.ops = some OpsRef.aead := by
    cases hcs : cs.ops with
    | none =>
      simp [ovpn_crypto_state_select_family, ovpn_crypto_select_family, hfam, hcs]
    | some o =>
      cases o with
      | aead =>
        simp [ovpn_crypto_state_select_family, ovpn_crypto_select_family, hfam, hcs]
      | chm =>
        simp [ovpn_crypto_state_select_family, ovpn_crypto_select_family, hfam, hcs] at hsel
        exact absurd hsel (by decide)
  simp only [ovpn_crypto_state_reset, hops, ovpn_ks_new, opsNewSlot, aead_new_slot,
    if_neg halg]

/-- Claim C1, witness: scenario S3 — select_family(AEAD) on a fresh state
succeeds, and a primary-slot reset with an AES-CBC KeyConfig then fails
with -EOPNOTSUPP leaving the state unchanged. -/
theorem c1_witness :
    pkrSelAeadW.crypto_family = CryptoFamily.aead
  ∧ (ovpn_crypto_state_select_family ovpn_crypto_state_init pkrSelAeadW).ret = 0
  ∧ ovpn_keys_familiy_get pkrCbcPrimW.key ≠ CryptoFamily.aead
  ∧ ovpn_crypto_state_reset
      (ovpn_crypto_state_select_family ovpn_crypto_state_init pkrSelAeadW).cs pkrCbcPrimW
      = some { ret := -EOPNOTSUPP,
               cs := (ovpn_crypto_state_select_family ovpn_crypto_state_init pkrSelAeadW).cs,
               allocated := [], released := [], writes := [] } := by
  refine ⟨rfl, by decide, by decide, ?_⟩
  exact c1_reset_wrong_family_rejected ovpn_crypto_state_init pkrSelAeadW pkrCbcPrimW
    rfl (by decide) (by decide)

/-- Claim C2, counterexample: after select_family(AEAD) has succeeded,
selecting CBC-HMAC — a recognised family (spec 4.1) different from the
bound one — fails with -EOPNOTSUPP (unsupported), not with -EINVAL
(family-changed) as the claim states. -/
theorem c2_counterexample :
    (ovpn_crypto_state_select_family ovpn_crypto_state_init pkrSelAeadW).ret = 0
  ∧ ovpn_crypto_state_select_family
      (ovpn_crypto_state_select_family ovpn_crypto_state_init pkrSelAeadW).cs pkrSelCbcW
      = { ret := -EOPNOTSUPP,
          cs := (ovpn_crypto_state_select_family ovpn_crypto_state_init pkrSelAeadW).cs }
  ∧ (-EOPNOTSUPP : Int) ≠ -EINVAL := by
  refine ⟨by decide, by decide, by decide⟩

/-- Claim C2, amended: select_family with the undefined family, or with
any family that has no ops table — which today includes the reserved
CBC-HMAC family — fails with -EOPNOTSUPP; after select_family(AEAD)
succeeds, selecting AEAD again succeeds and leaves the state unchanged;
every failing select_family call leaves the state unchanged; and the
family-changed error -EINVAL is returned exactly when the request maps to
an ops table while the state is already bound to a different one. -/
theorem c2_select_family_contract (cs : CryptoState) (pkr : PeerKeyReset) :
    (ovpn_crypto_select_family pkr = none →
       ovpn_crypto_state_select_family cs pkr = { ret := -EOPNOTSUPP, cs := cs })
  ∧ (pkr.crypto_family = CryptoFamily.undef ∨ pkr.crypto_family = CryptoFamily.cbc_hmac →
       ovpn_crypto_select_family pkr = none)
  ∧ (pkr.crypto_family = CryptoFamily.aead →
       (ovpn_crypto_state_select_family cs pkr).ret = 0 →
       ovpn_crypto_state_select_family (ovpn_crypto_state_select_family cs pkr).cs pkr
         = { ret := 0, cs := (ovpn_crypto_state_select_family cs pkr).cs })
  ∧ ((ovpn_crypto_state_select_family cs pkr).ret ≠ 0 →
       (ovpn_crypto_state_select_family cs pkr).cs = cs)
  ∧ (∀ o new_ops, cs.ops = some o → ovpn_crypto_select_family pkr = some new_ops →
       o ≠ new_ops →
       ovpn_crypto_state_select_family cs pkr = { ret := -EINVAL, cs := cs }) := by
  refine ⟨?_, ?_, ?_, ?_, ?_⟩
  · intro hnone
    simp only [ovpn_crypto_state_select_family, hnone]
  · intro h
    rcases h with h | h <;> simp [ovpn_crypto_select_family, h]
  · intro hfam hret
    cases hcs : cs.ops with
    | none =>
      simp [ovpn_crypto_state_select_family, ovpn_crypto_select_family, hfam, hcs]
    | some o =>
      cases o with
      | aead =>
        simp [ovpn_crypto_state_select_family, ovpn_crypto_select_family, hfam, hcs]
      | chm =>
        simp [ovpn_crypto_state_select_family, ovpn_crypto_select_family, hfam, hcs] at hret
        exact absurd hret (by decide)
  · intro hret
    cases hsel : ovpn_crypto_select_family pkr with
    | none =>
      simp only [ovpn_crypto_state_select_family, hsel]
    | some new_ops =>
      cases hcs : cs.ops with
      | none =>
        simp only [ovpn_crypto_state_select_family, hsel, hcs] at hret ⊢
        exact absurd rfl hret
      | some o =>
        simp only [ovpn_crypto_state_select_family, hsel, hcs] at hret ⊢
        by_cases ho : o = new_ops
        · rw [if_neg (by simp [ho])] at hret
          exact absurd rfl hret
        · rw [if_pos ho]
  · intro o new_ops hcs hsel ho
    simp only [ovpn_crypto_state_select_family, hsel, hcs]
    rw [if_pos ho]

/-- Claim C2, witness: selecting the undefined family on a fresh state
fails with -EOPNOTSUPP leaving it unchanged; selecting AEAD twice is
idempotent; selecting AEAD on a state bound to the other ops table
returns the family-changed error -EINVAL. -/
theorem c2_witness :
    ovpn_crypto_state_select_family (ovpn_crypto_state_select_family ovpn_crypto_state_init pkrSelAeadW).cs pkrSelAeadW
      = { ret := 0, cs := (ovpn_crypto_state_select_family ovpn_crypto_state_init pkrSelAeadW).cs }
  ∧ ovpn_crypto_state_select_family ovpn_crypto_state_init pkrSelCbcW
      = { ret := -EOPNOTSUPP, cs := ovpn_crypto_state_init }
  ∧ ovpn_crypto_state_select_family csChmW pkrSelAeadW
      = { ret := -EINVAL, cs := csChmW } := by
  refine ⟨?_, ?_, ?_⟩
  · exact (c2_select_family_contract ovpn_crypto_state_init pkrSelAeadW).2.2.1 rfl (by decide)
  · exact (c2_select_family_contract ovpn_crypto_state_init pkrSelCbcW).1 (by decide)
  · exact (c2_select_family_contract csChmW pkrSelAeadW).2.2.2.2 OpsRef.chm OpsRef.aead
      rfl (by decide) (by decide)

/-- A second ovpn_peer_delete is a no-op: the first call set halt, and a
halted peer is returned unchanged. -/
lemma ovpn_peer_delete_delete (p : Peer) :
    ovpn_peer_delete (ovpn_peer_delete p) = ovpn_peer_delete p := by
  by_cases h : p.halt
  · simp [ovpn_peer_delete, h]
  · simp [ovpn_peer_delete, ovpn_peer_put, h]

/-- Claim C7: ovpn_peer_delete is idempotent — the first call on a
non-halted peer sets halt and drops exactly one reference, a call on a
halted peer changes nothing, and any number n ≥ 1 of calls equals a
single call, so the caller's reference is dropped exactly once. -/
theorem c7_peer_delete_idempotent (p : Peer) (n : Nat) :
    (p.halt = false → 0 < p.refcount →
       (ovpn_peer_delete p).halt = true
       ∧ (ovpn_peer_delete p).refcount + 1 = p.refcount)
  ∧ (p.halt = true → ovpn_peer_delete p = p)
  ∧ (1 ≤ n → ovpn_peer_delete^[n] p = ovpn_peer_delete p) := by
  refine ⟨?_, ?_, ?_⟩
  · intro hh hrc
    constructor
    · simp [ovpn_peer_delete, ovpn_peer_put, hh]
    · simp only [ovpn_peer_delete, ovpn_peer_put, hh, Bool.false_eq_true, if_false]
      omega
  · intro hh
    simp [ovpn_peer_delete, hh]
  · intro hn
    induction n with
    | zero => exact absurd hn (by decide)
    | succ m ih =>
      cases Nat.eq_zero_or_pos m with
      | inl h0 =>
        subst h0
        simp
      | inr hpos =>
        rw [Function.iterate_succ_apply', ih hpos, ovpn_peer_delete_delete]

/-- Claim C7, witness: on a live peer with three references, one delete
sets halt and leaves two references, and two deletes equal one. -/
theorem c7_witness :
    (ovpn_peer_delete peerW).halt = true
  ∧ (ovpn_peer_delete peerW).refcount + 1 = peerW.refcount
  ∧ ovpn_peer_delete^[2] peerW = ovpn_peer_delete peerW := by
  have h := c7_peer_delete_idempotent peerW 2
  exact ⟨(h.1 rfl (by decide)).1, (h.1 rfl (by decide)).2, h.2.2 (by decide)⟩

/-- ovpn_peer_set_keepalive is a fixpoint after one application: the
second call with the same periods finds both timers already in their
final arming state and changes nothing. -/
lemma ovpn_peer_set_keepalive_idem (p : Peer) (a b : Nat) :
    ovpn_peer_set_keepalive (ovpn_peer_set_keepalive p a b) a b
      = ovpn_peer_set_keepalive p a b := by
  obtain ⟨ph, rc, ⟨xp, xa⟩, ⟨ep, ea⟩, cr⟩ := p
  by_cases ha : a = 0 <;> by_cases hb : b = 0 <;> cases xa <;> cases ea <;>
    by_cases hrc : rc = 0 <;>
    simp [ovpn_peer_set_keepalive, ovpn_peer_timer_schedule, ovpn_timer_schedule,
      ovpn_timer_set_period, Peer.getTimer, Peer.setTimer, ovpn_peer_hold,
      ovpn_peer_put, ovpn_timer_delete, ha, hb, hrc]

/-- Claim C8: every timer (re)schedule or delete changes the peer
refcount by exactly the arming-state change it causes — arming a
disarmed timer adds one reference, deleting an armed timer removes one,
rescheduling an armed timer (or a no-op schedule with period zero)
changes nothing; on the handler path (rcdelta -1) re-arming transfers the
fired reference and a zero period releases it; and repeating
set_keepalive with the same values leaves the state, hence the refcount
delta, at zero. -/
theorem c8_timer_refcount_balance (p : Peer) (tid : TimerId)
    (hrc : 0 < p.refcount) :
    ((p.getTimer tid).armed = false → 0 < (p.getTimer tid).period →
       (ovpn_peer_timer_schedule p tid 0).refcount = p.refcount + 1
       ∧ ((ovpn_peer_timer_schedule p tid 0).getTimer tid).armed = true)
  ∧ ((p.getTimer tid).armed = true →
       (ovpn_peer_timer_schedule p tid 0).refcount = p.refcount)
  ∧ ((p.getTimer tid).period = 0 →
       ovpn_peer_timer_schedule p tid 0 = p)
  ∧ ((p.getTimer tid).armed = false → 0 < (p.getTimer tid).period →
       (ovpn_peer_timer_schedule p tid (-1)).refcount = p.refcount)
  ∧ ((p.getTimer tid).period = 0 →
       (ovpn_peer_timer_schedule p tid (-1)).refcount + 1 = p.refcount)
  ∧ ((p.getTimer tid).armed = true →
       (ovpn_peer_timer_delete p tid).refcount + 1 = p.refcount
       ∧ ((ovpn_peer_timer_delete p tid).getTimer tid).armed = false)
  ∧ ((p.getTimer tid).armed = false →
       ovpn_peer_timer_delete p tid = p)
  ∧ (∀ a b, ovpn_peer_set_keepalive (ovpn_peer_set_keepalive p a b) a b
       = ovpn_peer_set_keepalive p a b) := by
  obtain ⟨ph, rc, ⟨xp, xa⟩, ⟨ep, ea⟩, cr⟩ := p
  have hrc0 : 0 < rc := hrc
  have hrc' : rc ≠ 0 := hrc0.ne'
  refine ⟨?_, ?_, ?_, ?_, ?_, ?_, ?_,
    fun a b => ovpn_peer_set_keepalive_idem _ a b⟩
  · cases tid <;>
      (intro h1 h2
       simp_all [ovpn_peer_timer_schedule, ovpn_timer_schedule, Peer.getTimer,
         Peer.setTimer, ovpn_peer_hold, Nat.pos_iff_ne_zero])
  · cases tid <;>
      (intro h1
       by_cases hxp : xp = 0 <;> by_cases hep : ep = 0 <;>
         simp_all [ovpn_peer_timer_schedule, ovpn_timer_schedule, Peer.getTimer,
           Peer.setTimer, ovpn_peer_hold])
  · cases tid <;>
      (intro h1
       simp_all [ovpn_peer_timer_schedule, ovpn_timer_schedule, Peer.getTimer,
         Peer.setTimer])
  · cases tid <;>
      (intro h1 h2
       simp_all [ovpn_peer_timer_schedule, ovpn_timer_schedule, Peer.getTimer,
         Peer.setTimer, Nat.pos_iff_ne_zero])
  · cases tid <;>
      (intro h1
       simp_all [ovpn_peer_timer_schedule, ovpn_timer_schedule, Peer.getTimer,
         Peer.setTimer, ovpn_peer_put]
       omega)
  · cases tid <;>
      (intro h1
       refine ⟨?_, ?_⟩ <;>
         simp_all [ovpn_peer_timer_delete, ovpn_timer_delete, Peer.getTimer,
           Peer.setTimer, ovpn_peer_put]
       all_goals omega)
  · cases tid <;>
      (intro h1
       simp_all [ovpn_peer_timer_delete, ovpn_timer_delete, Peer.getTimer,
         Peer.setTimer])

/-- Claim C8, witness: on a live peer with both timers disarmed, setting
keepalive periods 1 and 3 arms both timers and adds two references, and
repeating the same set_keepalive changes nothing; deleting the armed
xmit timer then removes exactly one reference. -/
theorem c8_witness :
    (ovpn_peer_timer_schedule peerKaW TimerId.xmit 0).refcount = peerKaW.refcount + 1
  ∧ ((ovpn_peer_timer_schedule peerKaW TimerId.xmit 0).getTimer TimerId.xmit).armed = true
  ∧ ovpn_peer_set_keepalive (ovpn_peer_set_keepalive peerW 1 3) 1 3
      = ovpn_peer_set_keepalive peerW 1 3
  ∧ (ovpn_peer_timer_delete peerArmedW TimerId.xmit).refcount + 1 = peerArmedW.refcount := by
  have h1 := c8_timer_refcount_balance peerKaW TimerId.xmit (by decide)
  have h2 := c8_timer_refcount_balance peerArmedW TimerId.xmit (by decide)
  exact ⟨(h1.1 rfl (by decide)).1, (h1.1 rfl (by decide)).2,
    (c8_timer_refcount_balance peerW TimerId.xmit (by decide)).2.2.2.2.2.2.2 1 3,
    (h2.2.2.2.2.2.1 rfl).1⟩

/-- A reset call never changes which ops table the state is bound to. -/
lemma ovpn_crypto_state_reset_ops (cs : CryptoState) (pkr : PeerKeyReset)
    (out : ResetOutcome) (h : ovpn_crypto_state_reset cs pkr = some out) :
    out.cs.ops = cs.ops := by
  cases hops : cs.ops with
  | none => simp [ovpn_crypto_state_reset, hops] at h
  | some o =>
    cases hnew : ovpn_ks_new o pkr.key with
    | error e =>
      simp only [ovpn_crypto_state_reset, hops, hnew, Option.some.injEq] at h
      subst h
      exact hops
    | ok ks =>
      simp only [ovpn_crypto_state_reset, hops, hnew] at h
      by_cases hp : pkr.slot = OVPN_KEY_SLOT_PRIMARY
      · rw [if_pos hp] at h
        simp only [Option.some.injEq] at h
        subst h
        rfl
      · rw [if_neg hp] at h
        by_cases hs : pkr.slot = OVPN_KEY_SLOT_SECONDARY
        · rw [if_pos hs] at h
          simp only [Option.some.injEq] at h
          subst h
          rfl
        · rw [if_neg hs] at h
          simp only [Option.some.injEq] at h
          subst h
          exact hops

/-- A successful reset into the primary slot leaves exactly the installed
slot (built from the request and stamped with its remote_peer_id) in the
primary pointer, and that value is not none. -/
lemma ovpn_crypto_state_reset_primary (cs : CryptoState) (o : OpsRef)
    (pkr : PeerKeyReset) (out : ResetOutcome) (hops : cs.ops = some o)
    (h : ovpn_crypto_state_reset cs pkr = some out) (hr : out.ret = 0)
    (hslot : pkr.slot = OVPN_KEY_SLOT_PRIMARY) :
    out.cs.primary = installedSlot o pkr ∧ installedSlot o pkr ≠ none := by
  cases hnew : ovpn_ks_new o pkr.key with
  | error e =>
    simp only [ovpn_crypto_state_reset, hops, hnew, Option.some.injEq] at h
    subst h
    exact absurd hr (ovpn_ks_new_error_ne_zero o pkr.key e hnew)
  | ok ks =>
    simp only [ovpn_crypto_state_reset, hops, hnew] at h
    rw [if_pos hslot] at h
    simp only [Option.some.injEq] at h
    subst h
    exact ⟨by simp [installedSlot, hnew], by simp [installedSlot, hnew]⟩

/-- Claim C9: key rotation is atomic with respect to readers — every
reset performs at most one store to a slot pointer and never stores none,
and for any sequence of successful primary-slot resets the primary
pointer's history is exactly the writer's installation sequence in order,
with no none in the middle; a reader sampling the history at
nondecreasing instants therefore observes a contiguous suffix of the
writer's sequence, never a null mid-swap and never an out-of-order
revival. -/
theorem c9_rotation_atomic :
    (∀ (cs : CryptoState) (pkr : PeerKeyReset) (out : ResetOutcome),
       ovpn_crypto_state_reset cs pkr = some out →
       out.writes.length ≤ 1 ∧ ∀ w ∈ out.writes, w.2 ≠ none)
  ∧ (∀ (o : OpsRef) (l : List PeerKeyReset) (cs : CryptoState)
       (traj : List (Option KeySlot)),
       cs.ops = some o →
       (∀ pkr ∈ l, pkr.slot = OVPN_KEY_SLOT_PRIMARY) →
       runPrimaryResets cs l = some traj →
       traj.length = l.length ∧
       ∀ (i : Nat) (hi : i < l.length) (ht : i < traj.length),
         traj.get ⟨i, ht⟩ = installedSlot o (l.get ⟨i, hi⟩)
         ∧ traj.get ⟨i, ht⟩ ≠ none) := by
  constructor
  · intro cs pkr out h
    cases hops : cs.ops with
    | none => simp [ovpn_crypto_state_reset, hops] at h
    | some o =>
      cases hnew : ovpn_ks_new o pkr.key with
      | error e =>
        simp only [ovpn_crypto_state_reset, hops, hnew, Option.some.injEq] at h
        subst h
        exact ⟨by simp, by simp⟩
      | ok ks =>
        simp only [ovpn_crypto_state_reset, hops, hnew] at h
        by_cases hp : pkr.slot = OVPN_KEY_SLOT_PRIMARY
        · rw [if_pos hp] at h
          simp only [Option.some.injEq] at h
          subst h
          exact ⟨by simp, by simp⟩
        · rw [if_neg hp] at h
          by_cases hs : pkr.slot = OVPN_KEY_SLOT_SECONDARY
          · rw [if_pos hs] at h
            simp only [Option.some.injEq] at h
            subst h
            exact ⟨by simp, by simp⟩
          · rw [if_neg hs] at h
            simp only [Option.some.injEq] at h
            subst h
            exact ⟨by simp, by simp⟩
  · intro o l
    induction l with
    | nil =>
      intro cs traj _ _ hrun
      simp only [runPrimaryResets, Option.some.injEq] at hrun
      subst hrun
      exact ⟨rfl, fun i hi _ => absurd hi (Nat.not_lt_zero i)⟩
    | cons pkr rest ih =>
      intro cs traj hops hslots hrun
      simp only [runPrimaryResets] at hrun
      cases hre : ovpn_crypto_state_reset cs pkr with
      | none =>
        rw [hre] at hrun
        exact absurd hrun (by simp)
      | some out =>
        rw [hre] at hrun
        simp only at hrun
        by_cases hr0 : out.ret = 0
        · rw [if_pos hr0] at hrun
          cases hrec : runPrimaryResets out.cs rest with
          | none =>
            rw [hrec] at hrun
            exact absurd hrun (by simp)
          | some tl =>
            rw [hrec] at hrun
            simp only [Option.some.injEq] at hrun
            subst hrun
            have hops' : out.cs.ops = some o := by
              rw [ovpn_crypto_state_reset_ops cs pkr out hre, hops]
            have hslots' : ∀ q ∈ rest, q.slot = OVPN_KEY_SLOT_PRIMARY :=
              fun q hq => hslots q (List.mem_cons_of_mem _ hq)
            have hhd := ovpn_crypto_state_reset_primary cs o pkr out hops hre hr0
              (hslots pkr (List.mem_cons_self _ _))
            have ihh := ih out.cs tl hops' hslots' hrec
            constructor
            · simp [ihh.1]
            · intro i hi ht
              cases i with
              | zero =>
                refine ⟨hhd.1, ?_⟩
                show out.cs.primary ≠ none
                rw [hhd.1]
                exact hhd.2
              | succ j =>
                have hj : j < rest.length := by simpa using hi
                have ht' : j < tl.length := by simpa using ht
                exact ihh.2 j hj ht'
        · rw [if_neg hr0] at hrun
          exact absurd hrun (by simp)

/-- Claim C9, witness: on the AEAD-bound state, installing K1 (key_id 1)
and then rotating to K2 (key_id 3) on the primary slot yields exactly the
history [K1, K2] — both entries non-null and in writer order — and the S1
reset call performs a single non-null store. -/
theorem c9_witness :
    runPrimaryResets csAeadW [pkrS1W, pkrS2W] = some trajW
  ∧ trajW.length = [pkrS1W, pkrS2W].length
  ∧ (∀ (i : Nat) (hi : i < [pkrS1W, pkrS2W].length) (ht : i < trajW.length),
       trajW.get ⟨i, ht⟩ = installedSlot OpsRef.aead ([pkrS1W, pkrS2W].get ⟨i, hi⟩)
       ∧ trajW.get ⟨i, ht⟩ ≠ none)
  ∧ outS1W.writes.length ≤ 1
  ∧ (∀ w ∈ outS1W.writes, w.2 ≠ none) := by
  have h := c9_rotation_atomic.2 OpsRef.aead [pkrS1W, pkrS2W] csAeadW trajW
    rfl (by decide) (by decide)
  have hw := c9_rotation_atomic.1 csAeadW pkrS1W outS1W (by decide)
  exact ⟨by decide, h.1, h.2, hw.1, hw.2⟩

end OvpnDco
